import Mathlib

/-! Verification development for the `nexus_pipeline` record-processing program
(`src/ex2/nexus_pipeline.py`).

The Python program is shallowly embedded:

* Python values (`str`, `int`, `bool`, `float`, `list`, `dict`, `None`) become
  the inductive type `Val`.  Python `dict`s are insertion-ordered association
  lists with unique keys; `dict` assignment is `setField` (replace in place,
  append when absent), which matches CPython's insertion-order semantics.
* Python floats are modelled as exact fractions (`PyNum`, an unnormalized
  `num / den` pair).  Real CPython floats are binary64 values: `+` and `/`
  round to 53-bit precision, an integer-to-float conversion or int/int
  division can raise `OverflowError`, and `repr` prints the shortest
  round-trip decimal.  The exact-fraction model agrees with the program
  only where every intermediate value is a small dyadic rational, so the
  theorems below assert concretely rendered numbers only at such inputs
  and never claim exact arithmetic for arbitrary float lists.
* Exceptions that escape a function are modelled with `Except String`;
  text printed with `print(...)` is collected in explicit stdout/stderr logs.
* `json.loads` is modelled by a fueled recursive-descent routine `json_loads`
  covering the JSON fragment the program exercises (objects, arrays, strings
  without escapes, integers, decimal floats, `true`/`false`/`null`).  The
  real decoder can additionally raise an uncaught `RecursionError` on
  deeply nested input, which the fueled model cannot represent; theorems
  about the JSON adapter are therefore conditional on the failure paths
  the decoder reports, and never assert that the adapter cannot fault.
* `csv.reader` on the first line is modelled as comma splitting, and
  `str.splitlines` as newline splitting with the trailing empty piece
  dropped, exactly enough to preserve the program's first-line tokenization
  and its empty-input behaviour.
-/

/-- Exact fraction standing for a Python number (`int`, `bool` or `float`).
The fraction is kept unnormalized so all arithmetic is kernel-computable. -/
structure PyNum where
  num : Int
  den : Nat
  deriving DecidableEq

/-- Python `+` on numbers: exact fraction addition. -/
def PyNum.add (x y : PyNum) : PyNum :=
  ⟨x.num * y.den + y.num * x.den, x.den * y.den⟩

/-- Python `/` by a positive integer (the divisor is `len(data)` in the
source, which is a `Nat`).  Python's true division always yields a float. -/
def PyNum.divNat (x : PyNum) (n : Nat) : PyNum :=
  ⟨x.num, x.den * n⟩

/-- Numeric equality of two fractions (cross multiplication); this is Python
`==` on numbers, which compares values across `int`/`bool`/`float`. -/
def PyNum.eqv (x y : PyNum) : Bool :=
  x.num * y.den == y.num * x.den

/-- Decimal digits of the fractional part `r / d`, with enough fuel to
terminate; terminating decimals (the only fractions the program prints) are
rendered exactly, as CPython's float `repr` does. -/
def fracDigits : Nat → Nat → Nat → String
  | 0, _, _ => ""
  | _, 0, _ => ""
  | fuel + 1, r, d =>
    let r10 := r * 10
    toString (r10 / d) ++ fracDigits fuel (r10 % d) d

/-- Python `repr`/`str` of a float value: sign, integer part, then either
`.0` or the fractional digits. -/
def decimalRepr (x : PyNum) : String :=
  let sign := if x.num < 0 then "-" else ""
  let n := x.num.natAbs
  let d := x.den
  if n % d = 0 then sign ++ toString (n / d) ++ ".0"
  else sign ++ toString (n / d) ++ "." ++ fracDigits 30 (n % d) d

/-- Python runtime values flowing through the pipeline.  Dict fields are an
insertion-ordered association list with string keys (every dict the program
builds or parses has string keys). -/
inductive Val where
  | vStr (s : String)
  | vInt (n : Int)
  | vBool (b : Bool)
  | vFloat (x : PyNum)
  | vList (xs : List Val)
  | vDict (fields : List (String × Val))
  | vNone

/-- Numeric view of a Python value (used after an `isinstance` guard has
established the value is an `int`, `bool` or `float`). -/
def Val.toNum : Val → PyNum
  | .vInt n => ⟨n, 1⟩
  | .vBool b => ⟨if b then 1 else 0, 1⟩
  | .vFloat x => x
  | _ => ⟨0, 1⟩

/-- Lookup of a key in a Python dict (`var[key]` / `key in var`). -/
def lookupField : List (String × Val) → String → Option Val
  | [], _ => none
  | (k, v) :: rest, key => if k == key then some v else lookupField rest key

/-- Python dict assignment `d[key] = v`: replaces the binding in place when
the key exists, appends at the end otherwise (insertion order). -/
def setField : List (String × Val) → String → Val → List (String × Val)
  | [], key, v => [(key, v)]
  | (k, w) :: rest, key, v =>
    if k == key then (k, v) :: rest else (k, w) :: setField rest key v

mutual

/-- Python `==` on the embedded values: numbers compare by value across
`int`/`bool`/`float`, lists pointwise, dicts by key set and per-key value. -/
def pyEq : Val → Val → Bool
  | .vStr s, .vStr t => s == t
  | .vStr _, _ => false
  | .vInt n, v => numEqv ⟨n, 1⟩ v
  | .vBool b, v => numEqv ⟨if b then 1 else 0, 1⟩ v
  | .vFloat x, v => numEqv x v
  | .vNone, .vNone => true
  | .vNone, _ => false
  | .vList xs, .vList ys => pyEqList xs ys
  | .vList _, _ => false
  | .vDict fs, .vDict gs => keysSub gs fs && pyEqFields fs gs
  | .vDict _, _ => false

/-- Comparison of a number against an arbitrary value (false unless the
other value is numeric too). -/
def numEqv : PyNum → Val → Bool
  | x, .vInt m => PyNum.eqv x ⟨m, 1⟩
  | x, .vBool c => PyNum.eqv x ⟨if c then 1 else 0, 1⟩
  | x, .vFloat y => PyNum.eqv x y
  | _, _ => false

/-- Pointwise list equality. -/
def pyEqList : List Val → List Val → Bool
  | [], [] => true
  | x :: xs, y :: ys => pyEq x y && pyEqList xs ys
  | _, _ => false

/-- Every key of the first association list occurs in the second. -/
def keysSub : List (String × Val) → List (String × Val) → Bool
  | [], _ => true
  | (k, _) :: rest, gs => (lookupField gs k).isSome && keysSub rest gs

/-- Every binding of the first dict is matched by an equal binding in the
second. -/
def pyEqFields : List (String × Val) → List (String × Val) → Bool
  | [], _ => true
  | (k, v) :: rest, gs =>
    (match lookupField gs k with
     | some w => pyEq v w
     | none => false) && pyEqFields rest gs

end

mutual

/-- Python `repr` of a value (single-quoted strings, `True`/`False`,
`None`, bracketed lists, braced dicts). -/
def pyRepr : Val → String
  | .vStr s => "\x27" ++ s ++ "\x27"
  | .vInt n => toString n
  | .vBool b => if b then "True" else "False"
  | .vFloat x => decimalRepr x
  | .vNone => "None"
  | .vList xs => "[" ++ pyReprList xs ++ "]"
  | .vDict fs => "\x7b" ++ pyReprFields fs ++ "\x7d"

/-- Comma-separated `repr`s of the elements of a list. -/
def pyReprList : List Val → String
  | [] => ""
  | [x] => pyRepr x
  | x :: rest => pyRepr x ++ ", " ++ pyReprList rest

/-- Comma-separated `repr`s of the bindings of a dict. -/
def pyReprFields : List (String × Val) → String
  | [] => ""
  | [(k, v)] => "\x27" ++ k ++ "\x27: " ++ pyRepr v
  | (k, v) :: rest => "\x27" ++ k ++ "\x27: " ++ pyRepr v ++ ", " ++ pyReprFields rest

end

/-- Python `str(...)`: the string itself for strings, `repr` otherwise. -/
def pyStr : Val → String
  | .vStr s => s
  | v => pyRepr v

/-- Python type name of a value, as it appears in diagnostics. -/
def pyTypeName : Val → String
  | .vStr _ => "str"
  | .vInt _ => "int"
  | .vBool _ => "bool"
  | .vFloat _ => "float"
  | .vList _ => "list"
  | .vDict _ => "dict"
  | .vNone => "NoneType"

/-- True exactly for dict values. -/
def Val.isDict : Val → Bool
  | .vDict _ => true
  | _ => false

/-- True exactly for string values. -/
def Val.isStr : Val → Bool
  | .vStr _ => true
  | _ => false

/-- True exactly for boolean values. -/
def Val.isBool : Val → Bool
  | .vBool _ => true
  | _ => false

/-- True exactly for list values. -/
def Val.isList : Val → Bool
  | .vList _ => true
  | _ => false

/-- Python type tags that occur in the program's `isinstance` checks and
prototype dicts. -/
inductive PyType where
  | tDict
  | tFloat
  | tStr
  | tInt
  | tBool
  | tList
  deriving DecidableEq

/-- Python `isinstance`.  Note `bool` is a subclass of `int` in Python, so
booleans are instances of `int` as well; they are not instances of `float`. -/
def isinst : Val → PyType → Bool
  | .vDict _, .tDict => true
  | .vFloat _, .tFloat => true
  | .vStr _, .tStr => true
  | .vInt _, .tInt => true
  | .vBool _, .tInt => true
  | .vBool _, .tBool => true
  | .vList _, .tList => true
  | _, _ => false

/-- Value of a prototype dict entry: either a type tag (`isinstance` check)
or a concrete value (equality check), as `dict_follows_prototype` branches
on `isinstance(typ, type)`. -/
inductive ProtoVal where
  | ofType (t : PyType)
  | ofVal (v : Val)

/-- Every key of the prototype occurs among the dict's keys
(`set(proto.keys()).issubset(set(var.keys()))`). -/
def protoKeysSubset : List (String × ProtoVal) → List (String × Val) → Bool
  | [], _ => true
  | (k, _) :: rest, fs => (lookupField fs k).isSome && protoKeysSubset rest fs

/-- Per-key check of the prototype loop: `isinstance(var[key], typ)` for a
type entry, `var[key] == typ` for a value entry. -/
def protoItemsCheck : List (String × ProtoVal) → List (String × Val) → Bool
  | [], _ => true
  | (k, .ofType t) :: rest, fs =>
    (match lookupField fs k with
     | some v => isinst v t
     | none => false) && protoItemsCheck rest fs
  | (k, .ofVal w) :: rest, fs =>
    (match lookupField fs k with
     | some v => pyEq v w
     | none => false) && protoItemsCheck rest fs

/-- Embedding of `dict_follows_prototype` (nexus_pipeline.py, lines 6-19):
false for non-dicts, false when a prototype key is missing, otherwise the
per-key type/value checks. -/
def dict_follows_prototype (var : Val) (proto : List (String × ProtoVal)) : Bool :=
  match var with
  | .vDict fs => protoKeysSubset proto fs && protoItemsCheck proto fs
  | _ => false

/-- Prototype `{"entry": dict}` used by all three stages. -/
def entryProto : List (String × ProtoVal) :=
  [("entry", ProtoVal.ofType .tDict)]

/-- Prototype `{"sensor": "temp", "value": float, "unit": str}` used by the
Transform and Output stages: `sensor` must equal `"temp"` exactly, `value`
must be a float, `unit` must be a string. -/
def sensorProto : List (String × ProtoVal) :=
  [("sensor", ProtoVal.ofVal (.vStr "temp")),
   ("value", ProtoVal.ofType .tFloat),
   ("unit", ProtoVal.ofType .tStr)]

/-- Diagnostic printed by every stage when the record lacks a dict `entry`. -/
def noEntryMsg : String := "[Error]: there are no entry field to process."

/-- Embedding of `InputStage.process` (lines 22-28): on a record with a dict
`entry`, set `valid = True` and return the same record; otherwise print a
diagnostic (to stdout) and return the empty dict.  The second component is
the list of printed lines. -/
def InputStage.process (data : Val) : Val × List String :=
  if dict_follows_prototype data entryProto then
    match data with
    | .vDict fs => (.vDict (setField fs "valid" (.vBool true)), [])
    | _ => (.vDict [], [noEntryMsg])
  else (.vDict [], [noEntryMsg])

/-- Embedding of `TransformStage.process` (lines 31-44): requires a dict
`entry`; rewrites `entry["unit"]` to `"°C"` when the entry follows
`sensorProto`; always attaches `metadata = {"amount": len(entry)}`. -/
def TransformStage.process (data : Val) : Val × List String :=
  if dict_follows_prototype data entryProto then
    match data with
    | .vDict fs =>
      match lookupField fs "entry" with
      | some (.vDict es) =>
        let es' := if dict_follows_prototype (.vDict es) sensorProto then
            setField es "unit" (.vStr "°C")
          else es
        let fs1 := setField fs "entry" (.vDict es')
        (.vDict (setField fs1 "metadata" (.vDict [("amount", .vInt es'.length)])), [])
      | _ => (.vDict [], [noEntryMsg])
    | _ => (.vDict [], [noEntryMsg])
  else (.vDict [], [noEntryMsg])

/-- Embedding of `OutputStage.process` (lines 47-57): requires a dict
`entry`; renders `f"{entry['value']}{entry['unit']}"` when the entry follows
`sensorProto`, otherwise returns the empty string; on a missing `entry`
prints a diagnostic and returns the empty string. -/
def OutputStage.process (data : Val) : Val × List String :=
  if dict_follows_prototype data entryProto then
    match data with
    | .vDict fs =>
      match lookupField fs "entry" with
      | some (.vDict es) =>
        if dict_follows_prototype (.vDict es) sensorProto then
          match lookupField es "value", lookupField es "unit" with
          | some v, some u => (.vStr (pyStr v ++ pyStr u), [])
          | _, _ => (.vStr "", [])
        else (.vStr "", [])
      | _ => (.vStr "", [noEntryMsg])
    | _ => (.vStr "", [noEntryMsg])
  else (.vStr "", [noEntryMsg])

/-- The three stage variants of the `Stage` union type. -/
inductive Stage where
  | input
  | transform
  | output
  deriving DecidableEq

/-- Polymorphic dispatch of `stage.process(data)`. -/
def Stage.process : Stage → Val → Val × List String
  | .input, data => InputStage.process data
  | .transform, data => TransformStage.process data
  | .output, data => OutputStage.process data

/-- Embedding of `ProcessingPipeline.process` (lines 71-75): thread the
record through the attached stages in order.  Returns the final value, the
concatenated printed lines, and the number of stage invocations. -/
def runStages : List Stage → Val → Val × List String × Nat
  | [], data => (data, [], 0)
  | s :: rest, data =>
    let (d, log) := s.process data
    let (d', log', n) := runStages rest d
    (d', log ++ log', n + 1)

/-- Result of one adapter invocation: the returned value (or the unhandled
exception that escaped), the lines printed to stdout and stderr, and the
number of stage invocations performed. -/
structure AdapterRun where
  result : Except String (Option String)
  out : List String
  err : List String
  stageCalls : Nat

/-- True exactly when the run ended in an unhandled exception. -/
def AdapterRun.isFault (r : AdapterRun) : Bool :=
  match r.result with
  | .error _ => true
  | .ok _ => false

/-- Removal of leading JSON whitespace. -/
def skipWs : List Char → List Char
  | [] => []
  | c :: rest =>
    if c = ' ' ∨ c = '\n' ∨ c = '\t' ∨ c = '\r' then skipWs rest else c :: rest

/-- Content of a JSON string literal after the opening quote (the program's
inputs use no escape sequences). -/
def parseStringRest : List Char → Except String (String × List Char)
  | [] => .error "Unterminated string"
  | c :: rest =>
    if c = '"' then .ok ("", rest)
    else
      match parseStringRest rest with
      | .ok (s, r) => .ok (⟨c :: s.data⟩, r)
      | .error e => .error e

/-- Longest run of leading decimal digits. -/
def takeDigits : List Char → List Char × List Char
  | [] => ([], [])
  | c :: rest =>
    if c.isDigit then
      let (ds, r) := takeDigits rest
      (c :: ds, r)
    else ([], c :: rest)

/-- Accumulating numeric value of a digit run. -/
def digitsToNatAux (acc : Nat) : List Char → Nat
  | [] => acc
  | c :: rest => digitsToNatAux (acc * 10 + (c.toNat - 48)) rest

/-- Numeric value of a digit run. -/
def digitsToNat (cs : List Char) : Nat :=
  digitsToNatAux 0 cs

/-- JSON number: optional minus, digits, optional fractional part.  Numbers
with a fractional part parse as floats, others as ints, matching the
stdlib decoder on the fragment the program uses. -/
def parseNumber (cs : List Char) : Except String (Val × List Char) :=
  let (sign, cs1) : Int × List Char :=
    match cs with
    | c :: r => if c = '-' then (-1, r) else (1, cs)
    | [] => (1, cs)
  let (ds, cs2) := takeDigits cs1
  if ds.isEmpty then .error "Expecting value"
  else
    match cs2 with
    | c :: cs3 =>
      if c = '.' then
        let (fds, cs4) := takeDigits cs3
        if fds.isEmpty then .error "Expecting value"
        else
          .ok (.vFloat ⟨sign * (digitsToNat ds * 10 ^ fds.length + digitsToNat fds),
                        10 ^ fds.length⟩, cs4)
      else .ok (.vInt (sign * digitsToNat ds), cs2)
    | [] => .ok (.vInt (sign * digitsToNat ds), [])

/-- Removal of an expected literal such as `rue` / `alse` / `ull`. -/
def stripLit : List Char → List Char → Option (List Char)
  | [], cs => some cs
  | l :: ls, c :: cs => if c = l then stripLit ls cs else none
  | _ :: _, [] => none

mutual

/-- Recursive-descent JSON value, fueled for termination. -/
def parseJsonValue : Nat → List Char → Except String (Val × List Char)
  | 0, _ => .error "Expecting value"
  | fuel + 1, cs =>
    match skipWs cs with
    | [] => .error "Expecting value"
    | c :: rest =>
      if c = '{' then
        match skipWs rest with
        | '}' :: r2 => .ok (.vDict [], r2)
        | r2 => parseJsonMembers fuel r2 []
      else if c = '[' then
        match skipWs rest with
        | ']' :: r2 => .ok (.vList [], r2)
        | r2 => parseJsonElements fuel r2 []
      else if c = '"' then
        match parseStringRest rest with
        | .ok (s, r2) => .ok (.vStr s, r2)
        | .error e => .error e
      else if c = 't' then
        match stripLit ['r', 'u', 'e'] rest with
        | some r2 => .ok (.vBool true, r2)
        | none => .error "Expecting value"
      else if c = 'f' then
        match stripLit ['a', 'l', 's', 'e'] rest with
        | some r2 => .ok (.vBool false, r2)
        | none => .error "Expecting value"
      else if c = 'n' then
        match stripLit ['u', 'l', 'l'] rest with
        | some r2 => .ok (.vNone, r2)
        | none => .error "Expecting value"
      else parseNumber (c :: rest)

/-- Members of a JSON object after the opening brace. -/
def parseJsonMembers : Nat → List Char → List (String × Val) →
    Except String (Val × List Char)
  | 0, _, _ => .error "Expecting value"
  | fuel + 1, cs, acc =>
    match skipWs cs with
    | '"' :: rest =>
      match parseStringRest rest with
      | .error e => .error e
      | .ok (k, r2) =>
        match skipWs r2 with
        | ':' :: r3 =>
          match parseJsonValue fuel r3 with
          | .error e => .error e
          | .ok (v, r4) =>
            match skipWs r4 with
            | ',' :: r5 => parseJsonMembers fuel r5 (setField acc k v)
            | '}' :: r5 => .ok (.vDict (setField acc k v), r5)
            | _ => .error "Expecting delimiter"
        | _ => .error "Expecting colon delimiter"
    | _ => .error "Expecting property name enclosed in double quotes"

/-- Elements of a JSON array after the opening bracket. -/
def parseJsonElements : Nat → List Char → List Val →
    Except String (Val × List Char)
  | 0, _, _ => .error "Expecting value"
  | fuel + 1, cs, acc =>
    match parseJsonValue fuel cs with
    | .error e => .error e
    | .ok (v, r) =>
      match skipWs r with
      | ',' :: r2 => parseJsonElements fuel r2 (acc ++ [v])
      | ']' :: r2 => .ok (.vList (acc ++ [v]), r2)
      | _ => .error "Expecting delimiter"

end

/-- Model of `json.loads` on strings: parse one value, then require only
whitespace to remain.  The model is fueled by the input length and so has
no recursion limit; the real decoder's `RecursionError` on deeply nested
input is outside this model. -/
def json_loads (s : String) : Except String Val :=
  match parseJsonValue (s.length + 1) s.data with
  | .error e => .error e
  | .ok (v, rest) => if (skipWs rest).isEmpty then .ok v else .error "Extra data"

/-- Embedding of `JSONAdapter.process` (lines 78-96): `json.loads` failures
(malformed syntax, or a non-string argument raising `TypeError`) are caught,
printed to stderr and turned into the `None` sentinel; on success the parsed
value is wrapped as `entry` with `type = "json"`, run through the stages,
and the final value is stringified. -/
def JSONAdapter.process (stages : List Stage) (data : Val) : AdapterRun :=
  match data with
  | .vStr s =>
    match json_loads s with
    | .error e => { result := .ok none, out := [], err := [e], stageCalls := 0 }
    | .ok v =>
      let input_data := Val.vDict [("entry", v), ("type", .vStr "json")]
      let (outv, log, n) := runStages stages input_data
      { result := .ok (some (pyStr outv)), out := log, err := [], stageCalls := n }
  | v =>
    { result := .ok none, out := [],
      err := ["the JSON object must be str, bytes or bytearray, not " ++ pyTypeName v],
      stageCalls := 0 }

/-- Model of `str.splitlines` on the character list, restricted to `\n`
separators: the empty string has no lines, a terminating newline does not
open a new line, and interior newlines separate (possibly empty) lines,
exactly as in CPython. -/
def splitLinesCh : List Char → List (List Char)
  | [] => []
  | c :: rest =>
    if c = '\n' then [] :: splitLinesCh rest
    else
      match splitLinesCh rest with
      | [] => [[c]]
      | p :: ps => (c :: p) :: ps

/-- Model of `str.splitlines` (restricted to `\n` separators). -/
def pySplitlines (s : String) : List String :=
  (splitLinesCh s.data).map (fun cs => ⟨cs⟩)

/-- Split on commas, keeping empty pieces (the comma-separated fields of
one CSV row, as `csv.reader` yields them for unquoted tokens). -/
def splitCommaCh : List Char → List (List Char)
  | [] => [[]]
  | c :: rest =>
    if c = ',' then [] :: splitCommaCh rest
    else
      match splitCommaCh rest with
      | [] => [[c]]
      | p :: ps => (c :: p) :: ps

/-- One step of the frequency-table loop: `entries[i] += 1` when the token
is present, `entries[i] = 1` otherwise. -/
def bumpTok : List (String × Val) → String → List (String × Val)
  | [], t => [(t, .vInt 1)]
  | (k, v) :: rest, t =>
    if k == t then
      (k, match v with
          | .vInt n => .vInt (n + 1)
          | w => w) :: rest
    else (k, v) :: bumpTok rest t

/-- Frequency table of a token list, in insertion order. -/
def buildFreq : List String → List (String × Val) → List (String × Val)
  | [], acc => acc
  | t :: ts, acc => buildFreq ts (bumpTok acc t)

/-- Embedding of `CSVAdapter.process` (lines 99-123): non-string input
raises a `TypeError` that is caught, printed to stderr and turned into the
`None` sentinel; otherwise the first line (`list(reader(...))[0]`, an
unhandled `IndexError` when the input has no lines) is tokenized on commas
into a frequency-table `entry` with `type = "csv"`, run through the stages,
and the final value is stringified. -/
def CSVAdapter.process (stages : List Stage) (data : Val) : AdapterRun :=
  match data with
  | .vStr s =>
    match (pySplitlines s).head? with
    | none =>
      { result := .error "IndexError: list index out of range", out := [],
        err := [], stageCalls := 0 }
    | some line =>
      let row := if line = "" then []
        else (splitCommaCh line.data).map (fun cs => (⟨cs⟩ : String))
      let entries := buildFreq row []
      let input_data := Val.vDict [("entry", .vDict entries), ("type", .vStr "csv")]
      let (outv, log, n) := runStages stages input_data
      { result := .ok (some (pyStr outv)), out := log, err := [], stageCalls := n }
  | _ =>
    { result := .ok none, out := [],
      err := ["[Error]: csv data input should be a string."], stageCalls := 0 }

/-- Python `sum` over a list of numeric samples (starting from the int 0). -/
def pySum (xs : List Val) : PyNum :=
  xs.foldl (fun acc v => acc.add v.toNum) ⟨0, 1⟩

/-- The arithmetic mean `sum(data) / len(data)` of the samples. -/
def pyMean (xs : List Val) : PyNum :=
  (pySum xs).divNat xs.length

/-- Embedding of `StreamAdapter.process` (lines 126-143): inputs that are
not a list, or contain an element that is not an `int`/`float` (booleans
pass, being `int` instances), are rejected with a printed diagnostic and the
`None` sentinel.  A list that passes the check but is empty reaches
`sum(data) / len(data)` and raises an unhandled `ZeroDivisionError`.
Otherwise the mean is wrapped in a sensor-reading `entry` with
`type = "stream"`, run through the stages, and the final value is
stringified. -/
def StreamAdapter.process (stages : List Stage) (data : Val) : AdapterRun :=
  match data with
  | .vList xs =>
    if xs.any (fun i => !(isinst i .tInt || isinst i .tFloat)) then
      { result := .ok none, out := ["[Error]: data format does not fit the stream!"],
        err := [], stageCalls := 0 }
    else if xs.length = 0 then
      { result := .error "ZeroDivisionError: division by zero", out := [],
        err := [], stageCalls := 0 }
    else
      let input_data := Val.vDict
        [("entry", .vDict [("sensor", .vStr "temp"), ("value", .vFloat (pyMean xs)),
                           ("unit", .vStr "C")]),
         ("type", .vStr "stream")]
      let (outv, log, n) := runStages stages input_data
      { result := .ok (some (pyStr outv)), out := log, err := [], stageCalls := n }
  | _ =>
    { result := .ok none, out := ["[Error]: data format does not fit the stream!"],
      err := [], stageCalls := 0 }

/-- The three concrete `ProcessingPipeline` subclasses. -/
inductive AdapterKind where
  | json
  | csv
  | stream
  deriving DecidableEq

/-- One pipeline object: its id, its adapter variant and its attached
stages (in attachment order). -/
structure Pipeline where
  pipeline_id : String
  adapter : AdapterKind
  stages : List Stage

/-- Polymorphic dispatch of `pipeline.process(data)`. -/
def Pipeline.process (p : Pipeline) (data : Val) : AdapterRun :=
  match p.adapter with
  | .json => JSONAdapter.process p.stages data
  | .csv => CSVAdapter.process p.stages data
  | .stream => StreamAdapter.process p.stages data

/-- Argument passed to `add_pipeline`: either an actual
`ProcessingPipeline` instance or any other value. -/
inductive PipeArg where
  | pipe (p : Pipeline)
  | other (v : Val)

/-- Embedding of the `NexusManager` state (line 151): the registered
pipelines, in registration order. -/
structure NexusManager where
  pipelines : List Pipeline

/-- Embedding of `NexusManager.add_pipeline` (lines 153-160): an actual
pipeline instance is appended; any other argument takes the rejection
branch, whose `print(..., file=sys.error)` raises an unhandled
`AttributeError` (the `sys` module has no `error` attribute), so nothing is
printed and nothing is appended. -/
def NexusManager.add_pipeline (m : NexusManager) (arg : PipeArg) :
    Except String NexusManager :=
  match arg with
  | .pipe p => .ok ⟨m.pipelines ++ [p]⟩
  | .other _ => .error "AttributeError: module \x27sys\x27 has no attribute \x27error\x27"

/-- Embedding of `NexusManager.process_data` (lines 162-163): the body is
the single statement `pass`, so the method ignores its argument, invokes no
pipeline, and returns `None`. -/
def NexusManager.process_data (_m : NexusManager) (_data : Val) : Option Val :=
  none

/-- The demo stage list attached by `main`: Input, then Transform, then
Output. -/
def stdStages : List Stage := [Stage.input, Stage.transform, Stage.output]

/-- The demo stream input `[20, 21, 22, 23, 24.5]`. -/
def demoSamples : List Val :=
  [.vInt 20, .vInt 21, .vInt 22, .vInt 23, .vFloat ⟨49, 2⟩]

/-- A sensor-reading entry `{"sensor": "temp", "value": 23.5, "unit": "C"}`. -/
def demoEntry : List (String × Val) :=
  [("sensor", Val.vStr "temp"), ("value", Val.vFloat ⟨47, 2⟩), ("unit", Val.vStr "C")]

/-- An entry with a sensor field, a float value and a string unit whose
sensor name is not `"temp"`. -/
def humidityEntry : List (String × Val) :=
  [("sensor", Val.vStr "humidity"), ("value", Val.vFloat ⟨1, 1⟩), ("unit", Val.vStr "C")]

/-- The demo stream pipeline with the three standard stages attached. -/
def demoStreamPipeline : Pipeline := ⟨"STREAM_001", .stream, stdStages⟩

/-- Modelled from the spec: claim C4's reading of the sensor-reading shape,
requiring only that a `sensor` field is present (of any value), that
`value` is of float type and `unit` of string type. -/
def matchesSensorShapeSpec (entry : Val) : Bool :=
  match entry with
  | .vDict fs =>
    (lookupField fs "sensor").isSome &&
    (match lookupField fs "value" with
     | some v => isinst v .tFloat
     | none => false) &&
    (match lookupField fs "unit" with
     | some v => isinst v .tStr
     | none => false)
  | _ => false

theorem lookupField_setField_self (fs : List (String × Val)) (k : String) (v : Val) :
    lookupField (setField fs k v) k = some v := by
  induction fs with
  | nil => simp [setField, lookupField]
  | cons hd tl ih =>
    obtain ⟨k', w⟩ := hd
    by_cases h : k' = k
    · simp [setField, lookupField, h]
    · simp [setField, lookupField, h, ih]

theorem lookupField_setField_ne (fs : List (String × Val)) (k k' : String) (v : Val)
    (h : k' ≠ k) : lookupField (setField fs k v) k' = lookupField fs k' := by
  have hkk : k ≠ k' := Ne.symm h
  induction fs with
  | nil => simp [setField, lookupField, hkk]
  | cons hd tl ih =>
    obtain ⟨k0, w⟩ := hd
    by_cases h0 : k0 = k
    · subst h0
      simp [setField, lookupField, hkk]
    · simp [setField, lookupField, h0, ih]

theorem setField_length (fs : List (String × Val)) (k : String) (v : Val)
    (h : (lookupField fs k).isSome = true) :
    (setField fs k v).length = fs.length := by
  induction fs with
  | nil => simp [lookupField] at h
  | cons hd tl ih =>
    obtain ⟨k0, w⟩ := hd
    by_cases h0 : k0 = k
    · simp [setField, h0]
    · simp only [lookupField, h0, if_false, beq_iff_eq] at h
      simp [setField, h0, ih h]

theorem protoKeysSubset_false_of_missing (proto : List (String × ProtoVal))
    (fs : List (String × Val)) (k : String)
    (hk : k ∈ proto.map Prod.fst) (h : lookupField fs k = none) :
    protoKeysSubset proto fs = false := by
  induction proto with
  | nil => simp at hk
  | cons hd tl ih =>
    obtain ⟨k0, pv⟩ := hd
    simp only [List.map_cons, List.mem_cons] at hk
    rcases hk with h0 | h0
    · simp only [protoKeysSubset]
      rw [show k0 = k from h0.symm, h]
      simp
    · simp [protoKeysSubset, ih h0]

theorem protoKeysSubset_setField (proto : List (String × ProtoVal))
    (fs : List (String × Val)) (k : String) (v : Val)
    (h : protoKeysSubset proto fs = true) (hk : k ∉ proto.map Prod.fst) :
    protoKeysSubset proto (setField fs k v) = true := by
  induction proto with
  | nil => rfl
  | cons hd tl ih =>
    obtain ⟨k0, pv⟩ := hd
    simp only [protoKeysSubset, Bool.and_eq_true] at h ⊢
    have hne : k0 ≠ k := by
      intro hh
      exact hk (by simp [hh.symm])
    refine ⟨?_, ih h.2 (fun hm => hk (List.mem_cons_of_mem _ hm))⟩
    rw [lookupField_setField_ne fs k k0 v hne]
    exact h.1

theorem protoItemsCheck_setField (proto : List (String × ProtoVal))
    (fs : List (String × Val)) (k : String) (v : Val)
    (h : protoItemsCheck proto fs = true) (hk : k ∉ proto.map Prod.fst) :
    protoItemsCheck proto (setField fs k v) = true := by
  induction proto with
  | nil => rfl
  | cons hd tl ih =>
    obtain ⟨k0, pv⟩ := hd
    have hne : k0 ≠ k := by
      intro hh
      exact hk (by simp [hh.symm])
    have hlk := lookupField_setField_ne fs k k0 v hne
    cases pv with
    | ofType t =>
      simp only [protoItemsCheck, Bool.and_eq_true] at h ⊢
      refine ⟨?_, ih h.2 (fun hm => hk (List.mem_cons_of_mem _ hm))⟩
      rw [hlk]
      exact h.1
    | ofVal w =>
      simp only [protoItemsCheck, Bool.and_eq_true] at h ⊢
      refine ⟨?_, ih h.2 (fun hm => hk (List.mem_cons_of_mem _ hm))⟩
      rw [hlk]
      exact h.1

theorem sensorProto_unit_isSome (es : List (String × Val))
    (h : dict_follows_prototype (.vDict es) sensorProto = true) :
    (lookupField es "unit").isSome = true := by
  have h1 : protoKeysSubset sensorProto es = true := by
    simp only [dict_follows_prototype, Bool.and_eq_true] at h
    exact h.1
  simp only [sensorProto, protoKeysSubset, Bool.and_eq_true] at h1
  exact h1.2.2.1

/-- C7: `dict_follows_prototype` returns false when the value is not a
mapping or when any key of the shape is missing from the value, permits
extra keys in the value (it is a sub-set match, and being a total Lean
function it raises nothing), and is monotone under extra fields: adding a
key that does not occur in the shape to an already-matching dict never
makes the match false. -/
theorem dict_follows_prototype_contract :
    (∀ (v : Val) (proto : List (String × ProtoVal)), v.isDict = false →
        dict_follows_prototype v proto = false)
  ∧ (∀ (fs : List (String × Val)) (proto : List (String × ProtoVal)) (k : String),
        k ∈ proto.map Prod.fst → lookupField fs k = none →
        dict_follows_prototype (.vDict fs) proto = false)
  ∧ (∀ (fs : List (String × Val)) (proto : List (String × ProtoVal)) (k : String)
        (w : Val),
        dict_follows_prototype (.vDict fs) proto = true →
        k ∉ proto.map Prod.fst →
        dict_follows_prototype (.vDict (setField fs k w)) proto = true) := by
  refine ⟨?_, ?_, ?_⟩
  · intro v proto hv
    cases v <;> first | rfl | simp [Val.isDict] at hv
  · intro fs proto k hk h
    simp [dict_follows_prototype, protoKeysSubset_false_of_missing proto fs k hk h]
  · intro fs proto k w h hk
    simp only [dict_follows_prototype, Bool.and_eq_true] at h ⊢
    exact ⟨protoKeysSubset_setField proto fs k w h.1 hk,
           protoItemsCheck_setField proto fs k w h.2 hk⟩

/-- Witness for C7 at concrete inputs: a non-dict value never matches, a
dict missing the `value` key fails the sensor shape, and adding an
unrelated `extra` key to a matching sensor entry keeps the match true. -/
theorem dict_follows_prototype_contract_witness :
    dict_follows_prototype (.vInt 3) sensorProto = false
  ∧ dict_follows_prototype (.vDict [("sensor", .vStr "temp")]) sensorProto = false
  ∧ dict_follows_prototype (.vDict (setField demoEntry "extra" (.vInt 7)))
      sensorProto = true :=
  ⟨dict_follows_prototype_contract.1 (.vInt 3) sensorProto rfl,
   dict_follows_prototype_contract.2.1 [("sensor", .vStr "temp")] sensorProto
     "value" (by decide) rfl,
   dict_follows_prototype_contract.2.2 demoEntry sensorProto "extra" (.vInt 7)
     (by decide) (by decide)⟩

/-- C3 counterexample: on a record with no `entry` field the Input stage
returns the empty record `{}` with a printed diagnostic; the returned
record has no `error` field at all, and in particular it is not the record
`{error: "error in stage 1"}` that the claim requires. -/
theorem input_stage_failure_returns_empty_record :
    InputStage.process (Val.vDict []) = (Val.vDict [], [noEntryMsg])
  ∧ lookupField [] "error" = none
  ∧ Val.vDict [] ≠ Val.vDict [("error", Val.vStr "error in stage 1")] :=
  ⟨rfl, rfl, by simp⟩

/-- C3 (amended): on a record whose `entry` field is present and is a
mapping, the Input stage returns the record with `valid` set to true and
prints nothing; on any other value it prints the diagnostic
`[Error]: there are no entry field to process.` to standard output and
returns the fresh empty record `{}` (which carries no `error` field). -/
theorem input_stage_contract :
    (∀ (fs : List (String × Val)),
        dict_follows_prototype (.vDict fs) entryProto = true →
        InputStage.process (.vDict fs) =
          (.vDict (setField fs "valid" (.vBool true)), []))
  ∧ (∀ (data : Val),
        dict_follows_prototype data entryProto = false →
        InputStage.process data = (.vDict [], [noEntryMsg])) := by
  constructor
  · intro fs h
    simp [InputStage.process, h]
  · intro data h
    cases data <;> simp [InputStage.process, h]

/-- Witness for C3 (amended) at concrete records. -/
theorem input_stage_contract_witness :
    InputStage.process (.vDict [("entry", .vDict [])]) =
      (.vDict [("entry", .vDict []), ("valid", .vBool true)], [])
  ∧ InputStage.process (.vStr "x") = (.vDict [], [noEntryMsg]) := by
  constructor
  · rw [input_stage_contract.1 [("entry", .vDict [])] (by decide)]
    rfl
  · exact input_stage_contract.2 (.vStr "x") (by decide)

/-- C4 counterexample: the entry
`{"sensor": "humidity", "value": 1.0, "unit": "C"}` has the fields
`sensor`, `value` (a float) and `unit` (a string), so it matches the shape
as claim C4 words it, yet the Transform stage leaves its `unit` as `"C"`
instead of rewriting it to `"°C"`, because the code's prototype demands
`sensor == "temp"` exactly. -/
theorem transform_stage_sensor_name_not_rewritten :
    matchesSensorShapeSpec (.vDict humidityEntry) = true
  ∧ TransformStage.process (.vDict [("entry", .vDict humidityEntry)]) =
      (.vDict [("entry", .vDict humidityEntry),
               ("metadata", .vDict [("amount", .vInt 3)])], [])
  ∧ lookupField humidityEntry "unit" = some (.vStr "C") :=
  ⟨rfl, rfl, rfl⟩

/-- C4 (amended): on a record whose `entry` is a mapping, the Transform
stage rewrites `entry.unit` to `"°C"` exactly when the entry follows the
code's sensor prototype (`sensor` equal to the string `"temp"`, `value` a
float, `unit` a string); entries that do not follow that prototype are left
unchanged; in both cases `metadata.amount` is attached with the number of
fields of the entry. -/
theorem transform_stage_contract :
    ∀ (fs es : List (String × Val)),
      lookupField fs "entry" = some (.vDict es) →
      (dict_follows_prototype (.vDict es) sensorProto = true →
        TransformStage.process (.vDict fs) =
          (.vDict (setField
              (setField fs "entry" (.vDict (setField es "unit" (.vStr "°C"))))
              "metadata" (.vDict [("amount", .vInt es.length)])), []))
      ∧ (dict_follows_prototype (.vDict es) sensorProto = false →
        TransformStage.process (.vDict fs) =
          (.vDict (setField (setField fs "entry" (.vDict es))
              "metadata" (.vDict [("amount", .vInt es.length)])), [])) := by
  intro fs es hentry
  have hdfp : dict_follows_prototype (.vDict fs) entryProto = true := by
    simp [dict_follows_prototype, entryProto, protoKeysSubset, protoItemsCheck,
      hentry, isinst]
  constructor
  · intro hs
    have hlen : (setField es "unit" (.vStr "°C")).length = es.length :=
      setField_length es "unit" (.vStr "°C") (sensorProto_unit_isSome es hs)
    simp [TransformStage.process, hdfp, hentry, hs, hlen]
  · intro hs
    simp [TransformStage.process, hdfp, hentry, hs]

/-- Witness for C4 (amended): the demo sensor entry gets its unit rewritten
and `amount = 3` attached; the humidity entry is only enriched with
metadata. -/
theorem transform_stage_contract_witness :
    TransformStage.process (.vDict [("entry", .vDict demoEntry)]) =
      (.vDict [("entry", .vDict [("sensor", .vStr "temp"), ("value", .vFloat ⟨47, 2⟩),
                                 ("unit", .vStr "°C")]),
               ("metadata", .vDict [("amount", .vInt 3)])], [])
  ∧ TransformStage.process (.vDict [("entry", .vDict humidityEntry)]) =
      (.vDict [("entry", .vDict humidityEntry),
               ("metadata", .vDict [("amount", .vInt 3)])], []) := by
  constructor
  · rw [(transform_stage_contract [("entry", .vDict demoEntry)] demoEntry rfl).1
      (by decide)]
    rfl
  · rw [(transform_stage_contract [("entry", .vDict humidityEntry)] humidityEntry
      rfl).2 (by decide)]
    rfl

/-- C6 (amended): on a record whose `entry` is a mapping, the Output stage
returns exactly the concatenation of the stringified `value` and `unit`
fields (no rounding) when the entry follows the code's sensor prototype
(`sensor` equal to the string `"temp"`, a float `value`, a string `unit`);
it returns the empty string (not an error) when the entry does not follow
that prototype; and on a record with no `entry` it prints a diagnostic and
returns the empty string. -/
theorem output_stage_contract :
    (∀ (fs es : List (String × Val)) (v : Val) (u : String),
        lookupField fs "entry" = some (.vDict es) →
        dict_follows_prototype (.vDict es) sensorProto = true →
        lookupField es "value" = some v →
        lookupField es "unit" = some (.vStr u) →
        OutputStage.process (.vDict fs) = (.vStr (pyStr v ++ u), []))
  ∧ (∀ (fs es : List (String × Val)),
        lookupField fs "entry" = some (.vDict es) →
        dict_follows_prototype (.vDict es) sensorProto = false →
        OutputStage.process (.vDict fs) = (.vStr "", []))
  ∧ (∀ (fs : List (String × Val)),
        lookupField fs "entry" = none →
        OutputStage.process (.vDict fs) = (.vStr "", [noEntryMsg])) := by
  refine ⟨?_, ?_, ?_⟩
  · intro fs es v u hentry hs hv hu
    have hdfp : dict_follows_prototype (.vDict fs) entryProto = true := by
      simp [dict_follows_prototype, entryProto, protoKeysSubset, protoItemsCheck,
        hentry, isinst]
    simp [OutputStage.process, hdfp, hentry, hs, hv, hu, pyStr]
  · intro fs es hentry hs
    have hdfp : dict_follows_prototype (.vDict fs) entryProto = true := by
      simp [dict_follows_prototype, entryProto, protoKeysSubset, protoItemsCheck,
        hentry, isinst]
    simp [OutputStage.process, hdfp, hentry, hs]
  · intro fs hentry
    have hdfp : dict_follows_prototype (.vDict fs) entryProto = false := by
      simp [dict_follows_prototype, entryProto, protoKeysSubset, protoItemsCheck,
        hentry]
    simp [OutputStage.process, hdfp]

/-- Witness for C6: the transformed demo entry renders `"23.5°C"`, a
frequency-table entry renders the empty string, and a record without
`entry` yields the diagnostic and the empty string. -/
theorem output_stage_contract_witness :
    OutputStage.process (.vDict [("entry", .vDict (setField demoEntry "unit"
        (.vStr "°C")))]) = (.vStr "23.5°C", [])
  ∧ OutputStage.process (.vDict [("entry", .vDict [("user", .vInt 1)])]) =
      (.vStr "", [])
  ∧ OutputStage.process (.vDict [("type", .vStr "csv")]) =
      (.vStr "", [noEntryMsg]) := by
  refine ⟨?_, ?_, ?_⟩
  · rw [output_stage_contract.1
      [("entry", .vDict (setField demoEntry "unit" (.vStr "°C")))]
      (setField demoEntry "unit" (.vStr "°C"))
      (.vFloat ⟨47, 2⟩) "°C" rfl (by decide) rfl rfl]
    rfl
  · exact output_stage_contract.2.1 [("entry", .vDict [("user", .vInt 1)])]
      [("user", .vInt 1)] rfl (by decide)
  · exact output_stage_contract.2.2 [("type", .vStr "csv")] rfl

/-- C6 counterexample: the entry
`{"sensor": "humidity", "value": 1.0, "unit": "C"}` matches the
sensor-reading shape as the claim and spec section 4.1 word it (a `sensor`
field of any value, a float `value`, a string `unit`), so the claim
requires the rendering `"1.0C"`; the Output stage instead returns the
empty string, because the code's prototype demands `sensor == "temp"`
exactly. -/
theorem output_stage_spec_shape_not_rendered :
    matchesSensorShapeSpec (.vDict humidityEntry) = true
  ∧ OutputStage.process (.vDict [("entry", .vDict humidityEntry)]) =
      (.vStr "", [])
  ∧ pyStr (.vFloat ⟨1, 1⟩) ++ "C" ≠ "" :=
  ⟨rfl, rfl, by decide⟩

theorem runStages_count (stages : List Stage) (data : Val) :
    (runStages stages data).2.2 = stages.length := by
  induction stages generalizing data with
  | nil => rfl
  | cons s rest ih => simp [runStages, ih]

theorem all_bools_pass_stream_check (xs : List Val)
    (h : xs.all (fun i => i.isBool) = true) :
    (xs.any fun i => !(isinst i .tInt || isinst i .tFloat)) = false := by
  rw [List.any_eq_false]
  intro x hx
  have hb := List.all_eq_true.mp h x hx
  cases x <;> simp_all [Val.isBool, isinst]

/-- C10: every non-empty list whose elements are all booleans passes the
Stream adapter's `isinstance(i, (int, float))` check (booleans being `int`
instances), so the adapter accepts it as numeric samples instead of
rejecting it as non-conforming: every attached stage runs and a string
result is returned.  In particular `[True, True]` is accepted and its
entry value is the mean `2 / 2 = 1.0` exactly -- a dyadic value that the
program's float arithmetic also computes and renders exactly -- giving
`"1.0°C"`. -/
theorem stream_adapter_accepts_bools :
    (∀ (xs : List Val), xs.all (fun i => i.isBool) = true →
        (xs.any fun i => !(isinst i .tInt || isinst i .tFloat)) = false)
  ∧ (∀ (stages : List Stage) (xs : List Val), xs ≠ [] →
        xs.all (fun i => i.isBool) = true →
        ∃ s, (StreamAdapter.process stages (.vList xs)).result = .ok (some s)
          ∧ (StreamAdapter.process stages (.vList xs)).stageCalls =
              stages.length)
  ∧ (StreamAdapter.process stdStages
      (.vList [.vBool true, .vBool true])).result = .ok (some "1.0°C")
  ∧ PyNum.eqv (pyMean [.vBool true, .vBool true]) ⟨1, 1⟩ = true := by
  refine ⟨all_bools_pass_stream_check, ?_, rfl, by decide⟩
  intro stages xs h1 h2
  have hany := all_bools_pass_stream_check xs h2
  have hlen : ¬ xs.length = 0 := by
    cases xs with
    | nil => exact absurd rfl h1
    | cons a l => simp
  simp only [StreamAdapter.process, hany, Bool.false_eq_true, if_false, hlen]
  exact ⟨_, rfl, runStages_count stages (Val.vDict
    [("entry", .vDict [("sensor", .vStr "temp"), ("value", .vFloat (pyMean xs)),
                       ("unit", .vStr "C")]),
     ("type", .vStr "stream")])⟩

/-- Witness for C10: the theorem's universal part applied at the concrete
all-boolean list `[True, True]`. -/
theorem stream_adapter_accepts_bools_witness :
    ∃ s,
      (StreamAdapter.process stdStages
        (.vList [.vBool true, .vBool true])).result = .ok (some s)
      ∧ (StreamAdapter.process stdStages
          (.vList [.vBool true, .vBool true])).stageCalls = stdStages.length :=
  stream_adapter_accepts_bools.2.1 stdStages [.vBool true, .vBool true]
    (by simp) (by decide)

/-- C9: whenever `json.loads` fails -- on malformed syntax, or on a
non-string argument (a `TypeError`) -- the JSON adapter returns the `None`
sentinel, writes exactly one diagnostic line to stderr, and performs zero
stage invocations, so no partial record is produced or processed. -/
theorem json_adapter_parse_failure :
    (∀ (stages : List Stage) (s e : String),
        json_loads s = .error e →
        JSONAdapter.process stages (.vStr s) =
          { result := .ok none, out := [], err := [e], stageCalls := 0 })
  ∧ (∀ (stages : List Stage) (v : Val), v.isStr = false →
        JSONAdapter.process stages v =
          { result := .ok none, out := [],
            err := ["the JSON object must be str, bytes or bytearray, not " ++
              pyTypeName v],
            stageCalls := 0 }) := by
  constructor
  · intro stages s e h
    simp [JSONAdapter.process, h]
  · intro stages v hv
    cases v with
    | vStr s => simp [Val.isStr] at hv
    | vInt n => rfl
    | vBool b => rfl
    | vFloat x => rfl
    | vList xs => rfl
    | vDict fs => rfl
    | vNone => rfl

/-- Witness for C9: the non-JSON text `"not json"` and the non-string `42`
each yield the sentinel, one stderr diagnostic, and zero stage calls. -/
theorem json_adapter_parse_failure_witness :
    JSONAdapter.process stdStages (.vStr "not json") =
      { result := .ok none, out := [], err := ["Expecting value"], stageCalls := 0 }
  ∧ JSONAdapter.process stdStages (.vInt 42) =
      { result := .ok none, out := [],
        err := ["the JSON object must be str, bytes or bytearray, not int"],
        stageCalls := 0 } :=
  ⟨json_adapter_parse_failure.1 stdStages "not json" "Expecting value" rfl,
   json_adapter_parse_failure.2 stdStages (.vInt 42) rfl⟩

/-- C2 counterexample: the empty list passes the Stream adapter's format
check (no element fails `isinstance`), reaches `sum(data) / len(data)`,
and raises an unhandled `ZeroDivisionError` across the adapter boundary
with no diagnostic emitted -- it is a fault, not the sentinel-plus-
diagnostic the claim requires. -/
theorem stream_adapter_empty_list_fault :
    StreamAdapter.process stdStages (.vList []) =
      { result := .error "ZeroDivisionError: division by zero", out := [],
        err := [], stageCalls := 0 } := rfl

/-- C2 (amended): every format-validation rejection is a sentinel plus a
diagnostic, never a fault: the Stream adapter returns the `None` sentinel
and prints a diagnostic for a non-list input or for a list containing a
non-numeric element, the CSV adapter does so (on stderr) for a non-string
input, and the JSON adapter returns the sentinel with exactly one stderr
diagnostic on every parse failure its decoder reports; but an input that
passes validation can still fault: the empty sample list reaches
`sum(data) / len(data)` and raises an unhandled `ZeroDivisionError` with
no diagnostic, and the empty CSV string raises an unhandled `IndexError`.
(The program has further fault modes outside this embedding's numeric and
recursion model -- float-range `OverflowError` and deeply nested JSON
`RecursionError` -- so no converse "faults only here" is asserted.) -/
theorem adapter_error_paths :
    (∀ (stages : List Stage) (v : Val), v.isList = false →
        StreamAdapter.process stages v =
          { result := .ok none,
            out := ["[Error]: data format does not fit the stream!"], err := [],
            stageCalls := 0 })
  ∧ (∀ (stages : List Stage) (xs : List Val),
        (xs.any fun i => !(isinst i .tInt || isinst i .tFloat)) = true →
        StreamAdapter.process stages (.vList xs) =
          { result := .ok none,
            out := ["[Error]: data format does not fit the stream!"], err := [],
            stageCalls := 0 })
  ∧ (∀ (stages : List Stage),
        StreamAdapter.process stages (.vList []) =
          { result := .error "ZeroDivisionError: division by zero", out := [],
            err := [], stageCalls := 0 })
  ∧ (∀ (stages : List Stage) (v : Val), v.isStr = false →
        CSVAdapter.process stages v =
          { result := .ok none, out := [],
            err := ["[Error]: csv data input should be a string."],
            stageCalls := 0 })
  ∧ (∀ (stages : List Stage),
        CSVAdapter.process stages (.vStr "") =
          { result := .error "IndexError: list index out of range", out := [],
            err := [], stageCalls := 0 })
  ∧ (∀ (stages : List Stage) (s e : String), json_loads s = .error e →
        JSONAdapter.process stages (.vStr s) =
          { result := .ok none, out := [], err := [e], stageCalls := 0 }) := by
  refine ⟨?_, ?_, ?_, ?_, ?_, ?_⟩
  · intro stages v hv
    cases v with
    | vList xs => simp [Val.isList] at hv
    | vStr s => rfl
    | vInt n => rfl
    | vBool b => rfl
    | vFloat x => rfl
    | vDict fs => rfl
    | vNone => rfl
  · intro stages xs h
    simp only [StreamAdapter.process, h]
    rfl
  · intro stages
    rfl
  · intro stages v hv
    cases v with
    | vStr s => simp [Val.isStr] at hv
    | vInt n => rfl
    | vBool b => rfl
    | vFloat x => rfl
    | vList xs => rfl
    | vDict fs => rfl
    | vNone => rfl
  · intro stages
    rfl
  · intro stages s e h
    simp [JSONAdapter.process, h]

/-- Witness for C2 (amended) at concrete inputs: a string fed to the
Stream adapter, a sample list containing a string, an int fed to the CSV
adapter, and an unterminated JSON array each yield the sentinel plus a
single diagnostic, with no fault and no stage invocation. -/
theorem adapter_error_paths_witness :
    StreamAdapter.process stdStages (.vStr "nope") =
      { result := .ok none,
        out := ["[Error]: data format does not fit the stream!"], err := [],
        stageCalls := 0 }
  ∧ StreamAdapter.process stdStages (.vList [.vInt 1, .vStr "x"]) =
      { result := .ok none,
        out := ["[Error]: data format does not fit the stream!"], err := [],
        stageCalls := 0 }
  ∧ CSVAdapter.process stdStages (.vInt 7) =
      { result := .ok none, out := [],
        err := ["[Error]: csv data input should be a string."], stageCalls := 0 }
  ∧ JSONAdapter.process stdStages (.vStr "[1, 2") =
      { result := .ok none, out := [], err := ["Expecting delimiter"],
        stageCalls := 0 } :=
  ⟨adapter_error_paths.1 stdStages (.vStr "nope") rfl,
   adapter_error_paths.2.1 stdStages [.vInt 1, .vStr "x"] (by decide),
   adapter_error_paths.2.2.2.1 stdStages (.vInt 7) rfl,
   adapter_error_paths.2.2.2.2.2 stdStages "[1, 2" "Expecting delimiter" rfl⟩

/-- C1: `NexusManager.process_data` is the single statement `pass`: it
returns `None` for every manager state and every input, invoking no
registered pipeline -- even when a registered stream pipeline would have
mapped the demo input to `"22.1°C"`, as the last conjunct shows. -/
theorem nexus_manager_process_data_stub :
    (∀ (m : NexusManager) (data : Val), m.process_data data = none)
  ∧ (NexusManager.mk [demoStreamPipeline]).process_data (.vList demoSamples) = none
  ∧ (demoStreamPipeline.process (.vList demoSamples)).result = .ok (some "22.1°C") :=
  ⟨fun _ _ => rfl, rfl, rfl⟩

/-- C8: a genuine pipeline instance is appended to the registered list,
but any non-conforming argument takes the rejection branch, whose
`print(..., file=sys.error)` raises an unhandled `AttributeError` (the
`sys` module has no `error` attribute) -- so the rejection is not silent
and no diagnostic is emitted; the last conjunct evaluates the crash at the
concrete argument `42`. -/
theorem add_pipeline_reject_path_raises :
    (∀ (m : NexusManager) (p : Pipeline),
        m.add_pipeline (.pipe p) = .ok ⟨m.pipelines ++ [p]⟩)
  ∧ (∀ (m : NexusManager) (v : Val),
        m.add_pipeline (.other v) =
          .error "AttributeError: module \x27sys\x27 has no attribute \x27error\x27")
  ∧ (NexusManager.mk []).add_pipeline (.other (.vInt 42)) =
      .error "AttributeError: module \x27sys\x27 has no attribute \x27error\x27" :=
  ⟨fun _ _ => rfl, fun _ _ => rfl, rfl⟩
